import Mathlib

/- Verification of the KB Dojo article pipeline (src/app.py).
   The pipeline is embedded shallowly: the external model endpoint and the
   external document converter are parameters (an oracle and an exporter),
   all repository logic is translated function by function. -/

namespace KBDojo

/-- Processing options as read by the pipeline (src/app.py lines 50-52):
the selected action names, the perspective labels and the translation
languages.  Temperature and max-token options are only forwarded to the
external endpoint and are absorbed into the oracle parameter. -/
structure Options where
  Actions : List String
  Perspective : List String
  TranslationLanguages : List String
deriving DecidableEq

/-- The external model endpoint: a prompt, the selected model and the
options produce either the raw completion text or the failure sentinel
(an exception caught inside send_to_openai_api_async). -/
abbrev Oracle := String → String → Options → Option String

/-- The external document converter behind pandoc_utils.save_as_word:
markdown text to a binary blob, or the failure sentinel. -/
abbrev Exporter := String → Option String

/-- Embedding of send_to_openai_api_async (src/app.py lines 22-38): on
success the completion text is stripped; on any error the sentinel None
is returned instead of raising. -/
def send_to_openai_api_async (oracle : Oracle) (prompt : String)
    (selected_model : String) (options : Options) : Option String :=
  (oracle prompt selected_model options).map (fun s => s.trim)

/-- Python str.join with a comma separator, as used for perspectives. -/
def joinComma (l : List String) : String := String.intercalate ", " l

/-- Python truthiness of the optional template string: None and the empty
string are falsy. -/
def pyTruthy : Option String → Bool
  | none => false
  | some s => !(s == "")

/-- The generation prompt built in generate_content (src/app.py lines 87-92). -/
def generatePrompt (title content : String) (perspectives : List String) : String :=
  let prompt0 := "Generate a detailed knowledge base article based on the following title and content. If the content is a specific request (e.g., \x27write a recipe for chocolate cake\x27), create an article that fulfills that request. Title: " ++ title ++ "\n\nContent or Request: " ++ content ++ "\n\n"
  let prompt1 := if perspectives.isEmpty then prompt0
    else prompt0 ++ "Include separate sections for the following perspectives: " ++ joinComma perspectives ++ ".\n\n"
  prompt1 ++ "Provide the generated content in markdown format, without any additional comments or questions."

/-- Embedding of generate_content (src/app.py lines 85-98): the original
content is kept when the call fails or returns only whitespace. -/
def generate_content (oracle : Oracle) (title content : String)
    (perspectives : List String) (selected_model : String) (options : Options) : String :=
  match send_to_openai_api_async oracle (generatePrompt title content perspectives) selected_model options with
  | none => content
  | some g => if g.trim == "" then content else g

/-- The reauthoring prompt built in reauthor_content (src/app.py lines
104-119): the opening degenerates to a generate-from-template phrasing on
blank content, the template is interpolated when truthy, perspectives are
appended, and a no-commentary instruction closes the prompt. -/
def reauthorPrompt (content : String) (template_content : Option String)
    (perspectives : List String) : String :=
  let prompt0 := if content.trim == "" then
      "Generate a knowledge base article based on the following template:"
    else
      "Reauthor the following content"
  let prompt1 := if pyTruthy template_content then
      prompt0 ++ ", using the provided template as a guide for formatting:\n\nTemplate:\n" ++ template_content.getD "" ++ "\n\nContent to reauthor:"
    else
      prompt0 ++ ", maintaining its core information but improving its clarity, structure, and readability:"
  let prompt2 := prompt1 ++ "\n\n" ++ content ++ "\n\n"
  let prompt3 := if perspectives.isEmpty then prompt2
    else prompt2 ++ "Include separate sections for the following perspectives: " ++ joinComma perspectives ++ ".\n\n"
  prompt3 ++ "Provide the reauthored content directly, without any additional comments or questions."

/-- The reauthoring prompt in the branch with no (truthy) template,
spelled out so that the absence of template interpolation is explicit. -/
def reauthorPromptNoTemplate (content : String) (perspectives : List String) : String :=
  let prompt0 := if content.trim == "" then
      "Generate a knowledge base article based on the following template:"
    else
      "Reauthor the following content"
  let prompt1 := prompt0 ++ ", maintaining its core information but improving its clarity, structure, and readability:"
  let prompt2 := prompt1 ++ "\n\n" ++ content ++ "\n\n"
  let prompt3 := if perspectives.isEmpty then prompt2
    else prompt2 ++ "Include separate sections for the following perspectives: " ++ joinComma perspectives ++ ".\n\n"
  prompt3 ++ "Provide the reauthored content directly, without any additional comments or questions."

/-- Embedding of reauthor_content (src/app.py lines 101-125): the input
content is kept when the call fails or returns only whitespace. -/
def reauthor_content (oracle : Oracle) (content : String)
    (template_content : Option String) (perspectives : List String)
    (selected_model : String) (options : Options) : String :=
  match send_to_openai_api_async oracle (reauthorPrompt content template_content perspectives) selected_model options with
  | none => content
  | some r => if r.trim == "" then content else r

/-- The formatting prompt built in format_to_template (src/app.py line 130). -/
def formatPrompt (content template : String) : String :=
  "Format the following content to match the provided template structure, maintaining the original information:\n\nContent:\n" ++ content ++ "\n\nTemplate:\n" ++ template

/-- Embedding of format_to_template (src/app.py lines 128-131): the raw
model result (possibly the failure sentinel) is returned with no fallback. -/
def format_to_template (oracle : Oracle) (content template : String)
    (selected_model : String) (options : Options) : Option String :=
  send_to_openai_api_async oracle (formatPrompt content template) selected_model options

/-- The translation prompt built in the module-level translate_content of
src/app.py (line 136). -/
def translatePromptLocal (content language : String) : String :=
  "Translate the following content to " ++ language ++ ", maintaining its original structure and formatting. Provide the translated content directly, without any additional comments or questions:\n\n" ++ content

/-- Embedding of the module-level translate_content (src/app.py lines
134-137): the raw model result (possibly the failure sentinel) is
returned with no fallback.  The Article Pipeline does not call this
function; it calls prompt_utils.translate_content instead. -/
def translate_content (oracle : Oracle) (content language : String)
    (selected_model : String) (options : Options) : Option String :=
  send_to_openai_api_async oracle (translatePromptLocal content language) selected_model options

/-- Modelled from the spec: the translation prompt of
utils/prompt_utils.translate_content, whose source is not under src/.
Per spec section 4.1 it instructs a translation into the target language
preserving structure and formatting. -/
def translatePromptSpec (content language : String) : String :=
  "Translate the following content to " ++ language ++ ", preserving its original structure and formatting, and return only the translated content:\n\n" ++ content

/-- Modelled from the spec: utils/prompt_utils.translate_content, called
by the Article Pipeline at src/app.py line 70 but whose source is not
under src/.  Per spec sections 4.2 and 4.3 it sends a Translate prompt
and keeps the pre-translation content when the Model Client fails or
returns only whitespace. -/
def prompt_utils_translate_content (oracle : Oracle) (content language : String)
    (selected_model : String) (options : Options) : String :=
  match send_to_openai_api_async oracle (translatePromptSpec content language) selected_model options with
  | none => content
  | some t => if t.trim == "" then content else t

/-- Modelled from the spec: utils/prompt_utils.create_perspective_sections,
called at src/app.py line 64 but whose source is not under src/.  Per the
spec it is a presentation-only local restructuring, with no model call,
that adds one section per perspective label. -/
def create_perspective_sections (content : String) (perspectives : List String) : String :=
  content ++ String.join (perspectives.map (fun p => "\n\n## " ++ p ++ "\n"))

/-- One Processing Result, the tuple appended at src/app.py lines 76 and
81: document blob (or the failure sentinel), stored title, rendered text
and language tag. -/
structure ProcessingResult where
  docx : Option String
  title : String
  text : String
  lang : String
deriving DecidableEq

/-- Which prompt builder produced a model call. -/
inductive PromptKind
  | generate
  | reauthor
  | format
  | translate
deriving DecidableEq

/-- Observable pipeline events: a model call with its prompt, or the
local perspective-sectioning pass. -/
inductive Event
  | modelCall (kind : PromptKind) (prompt : String)
  | applyPerspectives
deriving DecidableEq

/-- Step 1 of process_article_async (src/app.py lines 54-60): generate
takes precedence, otherwise reauthor/format, otherwise pass through.
Alongside the content, the model call actually issued is recorded. -/
def contentStage (oracle : Oracle) (title content : String) (options : Options)
    (selected_model : String) (template_content : Option String) : String × List Event :=
  if options.Actions.contains "Generate Content" then
    (generate_content oracle title content options.Perspective selected_model options,
     [Event.modelCall PromptKind.generate (generatePrompt title content options.Perspective)])
  else if options.Actions.contains "Reauthor Content" || options.Actions.contains "Format to Template" then
    (reauthor_content oracle content template_content options.Perspective selected_model options,
     [Event.modelCall PromptKind.reauthor (reauthorPrompt content template_content options.Perspective)])
  else
    (content, [])

/-- Step 2 of process_article_async (src/app.py lines 62-65): local
perspective sectioning, guarded by a non-empty perspective list and the
absence of the Reauthor Content action. -/
def perspectiveStage (options : Options) (processed : String) : String × List Event :=
  if !options.Perspective.isEmpty && !options.Actions.contains "Reauthor Content" then
    (create_perspective_sections processed options.Perspective, [Event.applyPerspectives])
  else
    (processed, [])

/-- Step 3 of process_article_async (src/app.py lines 67-81): with the
Translate action, one result per requested language, each translated
independently from the processed content and exported; otherwise a
single result tagged Original. -/
def translationStage (oracle : Oracle) (exporter : Exporter) (title : String)
    (options : Options) (selected_model : String) (processed : String) :
    List ProcessingResult × List Event :=
  if options.Actions.contains "Translate" then
    (options.TranslationLanguages.map (fun lang =>
       let translated := prompt_utils_translate_content oracle processed lang selected_model options
       { docx := exporter translated, title := title ++ "_" ++ lang,
         text := translated, lang := lang }),
     options.TranslationLanguages.map (fun lang =>
       Event.modelCall PromptKind.translate (translatePromptSpec processed lang)))
  else
    ([{ docx := exporter processed, title := title, text := processed, lang := "Original" }], [])

/-- Embedding of process_article_async (src/app.py lines 41-83): the
three stages in sequence, returning the results and the event trace. -/
def process_article_async (oracle : Oracle) (exporter : Exporter)
    (title content : String) (options : Options) (selected_model : String)
    (template_content : Option String) : List ProcessingResult × List Event :=
  let s1 := contentStage oracle title content options selected_model template_content
  let s2 := perspectiveStage options s1.1
  let s3 := translationStage oracle exporter title options selected_model s2.1
  (s3.1, s1.2 ++ s2.2 ++ s3.2)

/-- The per-article operation count used by the batch orchestrator
(src/app.py lines 142-143 and 151-152). -/
def opsPerArticle (options : Options) : Nat :=
  options.Actions.length +
    (if options.Actions.contains "Translate" then options.TranslationLanguages.length else 0)

/-- The batch total computed before any article is processed
(src/app.py lines 142-143). -/
def total_operations (titles : List String) (options : Options) : Nat :=
  titles.length * opsPerArticle options

/-- The state returned by a finished batch: the accumulated results, the
final completed_operations counter, and the counter value at each
progress-bar update. -/
structure BatchOutput where
  all_results : List ProcessingResult
  completed_operations : Nat
  progressTrace : List Nat
deriving DecidableEq

/-- The loop of process_multiple_articles_async (src/app.py lines
147-153): each (title, content) pair is processed, the counter advances
by the per-article count, and the progress bar receives completed/total;
with total = 0 that division raises ZeroDivisionError, modelled as an
error value. -/
def batchLoop (oracle : Oracle) (exporter : Exporter) (options : Options)
    (selected_model : String) (template_content : Option String) (total : Nat) :
    List (String × String) → List ProcessingResult → Nat → List Nat →
    Except String BatchOutput
  | [], acc, completed, ptrace => Except.ok ⟨acc, completed, ptrace⟩
  | (title, content) :: rest, acc, completed, ptrace =>
    let results := (process_article_async oracle exporter title content options selected_model template_content).1
    let completed2 := completed + opsPerArticle options
    if total = 0 then Except.error "ZeroDivisionError"
    else batchLoop oracle exporter options selected_model template_content total
      rest (acc ++ results) completed2 (ptrace ++ [completed2])

/-- Embedding of process_multiple_articles_async (src/app.py lines
140-155): the total is fixed up front from the title count, the articles
are the positional zip of titles and contents, and the counter starts
at 0. -/
def process_multiple_articles_async (oracle : Oracle) (exporter : Exporter)
    (titles contents : List String) (options : Options) (selected_model : String)
    (template_content : Option String) : Except String BatchOutput :=
  batchLoop oracle exporter options selected_model template_content
    (total_operations titles options) (titles.zip contents) [] 0 []

/-- The download file name used by display_results (src/app.py line 279)
and by the archive entries (line 293): stored title, underscore, language
tag, docx extension. -/
def downloadFileName (r : ProcessingResult) : String :=
  r.title ++ "_" ++ r.lang ++ ".docx"

/-- The archive entries written by create_zip_download (src/app.py lines
291-293).  Reading the blob of a result whose export failed raises an
AttributeError (None has no getvalue), modelled as an error value. -/
def zipEntries : List ProcessingResult → Except String (List (String × String))
  | [] => Except.ok []
  | r :: rest =>
    match r.docx with
    | none => Except.error "AttributeError"
    | some b => (zipEntries rest).map (fun es => (downloadFileName r, b) :: es)

/-- Embedding of create_zip_download (src/app.py lines 289-300): the
archive is named kb_articles.zip and holds one entry per result. -/
def create_zip_download (results : List ProcessingResult) :
    Except String (String × List (String × String)) :=
  (zipEntries results).map (fun es => ("kb_articles.zip", es))

/-- Embedding of display_results (src/app.py lines 270-286): per result,
a download control named by downloadFileName when the blob is present
(an error message otherwise, modelled as none); the combined archive is
offered exactly when more than one result exists. -/
def display_results (results : List ProcessingResult) :
    List (Option String) × Option (Except String (String × List (String × String))) :=
  (results.map (fun r => r.docx.map (fun _ => downloadFileName r)),
   if results.length > 1 then some (create_zip_download results) else none)

/-- A string ends with the given pattern. -/
def endsWithStr (pat s : String) : Prop := pat.data <:+ s.data

/-- A string contains the given pattern as a contiguous substring. -/
def occursIn (pat s : String) : Prop := pat.data <:+: s.data

/-- Boolean form of endsWithStr for concrete evaluation. -/
def endsWithB (pat s : String) : Bool := decide (pat.data <:+ s.data)

/-- Boolean form of occursIn for concrete evaluation. -/
def occursB (pat s : String) : Bool := decide (pat.data <:+: s.data)

/-- A model response that is the failure sentinel or whitespace only. -/
def failsOrBlank (r : Option String) : Prop :=
  r = none ∨ ∃ s, r = some s ∧ s.trim = ""

/-- An always-failing model endpoint. -/
def oracle0 : Oracle := fun _ _ _ => none

/-- An always-failing document converter. -/
def exporter0 : Exporter := fun _ => none

/-- A document converter that always succeeds. -/
def exporter1 : Exporter := fun s => some s

/-- Options requesting only Translate, with no language selected. -/
def optsTempty : Options := ⟨["Translate"], [], []⟩

/-- Options requesting only Translate, into French. -/
def optsT1 : Options := ⟨["Translate"], [], ["French"]⟩

/-- Options requesting only Translate, into French and Spanish. -/
def optsT2 : Options := ⟨["Translate"], [], ["French", "Spanish"]⟩

/-- Options requesting only Reauthor Content. -/
def optsR : Options := ⟨["Reauthor Content"], [], []⟩

/-- Options requesting only Generate Content. -/
def optsG : Options := ⟨["Generate Content"], [], []⟩

/-- Options requesting only Format to Template. -/
def optsF : Options := ⟨["Format to Template"], [], []⟩

/-- Options with an empty action set. -/
def optsNone : Options := ⟨[], [], []⟩

instance (pat s : String) : Decidable (endsWithStr pat s) :=
  inferInstanceAs (Decidable (pat.data <:+ s.data))

instance (pat s : String) : Decidable (occursIn pat s) :=
  inferInstanceAs (Decidable (pat.data <:+: s.data))

/-- Appending strings concatenates their character lists. -/
theorem strData_append (a b : String) : (a ++ b).data = a.data ++ b.data := by
  cases a; cases b; rfl

/-- A string ends with its appended suffix. -/
theorem endsWithStr_append (a pat : String) : endsWithStr pat (a ++ pat) :=
  ⟨a.data, (strData_append a pat).symm⟩

/-- An occurrence survives appending on the right. -/
theorem occursIn_append_left {pat a : String} (b : String) (h : occursIn pat a) :
    occursIn pat (a ++ b) := by
  unfold occursIn at h ⊢
  rw [strData_append]
  exact h.trans ⟨[], b.data, by simp⟩

/-- An occurrence survives appending on the left. -/
theorem occursIn_append_right {pat b : String} (a : String) (h : occursIn pat b) :
    occursIn pat (a ++ b) := by
  unfold occursIn at h ⊢
  rw [strData_append]
  exact h.trans ⟨a.data, [], by simp⟩

/-- A string occurs in anything it was appended to. -/
theorem occursIn_append_self (a pat : String) : occursIn pat (a ++ pat) :=
  ⟨a.data, [], by simp [strData_append]⟩

/-- Characterisation of a batch loop run that returns normally: the results
are the accumulated per-article results in order, the counter advanced by the
per-article count once per processed pair, and the progress updates recorded
each successive counter value. -/
theorem batchLoop_ok_spec (oracle : Oracle) (exporter : Exporter) (options : Options)
    (selected_model : String) (template_content : Option String) (total : Nat) :
    ∀ (ps : List (String × String)) (acc : List ProcessingResult) (completed : Nat)
      (ptrace : List Nat) (out : BatchOutput),
      batchLoop oracle exporter options selected_model template_content total
          ps acc completed ptrace = Except.ok out →
      out.all_results = acc ++ (ps.map (fun p =>
          (process_article_async oracle exporter p.1 p.2 options selected_model template_content).1)).flatten
      ∧ out.completed_operations = completed + ps.length * opsPerArticle options
      ∧ out.progressTrace = ptrace ++ (List.range ps.length).map
          (fun i => completed + (i + 1) * opsPerArticle options) := by
  intro ps
  induction ps with
  | nil =>
    intro acc completed ptrace out h
    simp only [batchLoop, Except.ok.injEq] at h
    rw [← h]
    simp
  | cons p rest ih =>
    intro acc completed ptrace out h
    obtain ⟨title, content⟩ := p
    simp only [batchLoop] at h
    by_cases htot : total = 0
    · rw [if_pos htot] at h
      exact absurd h (by simp)
    · rw [if_neg htot] at h
      obtain ⟨h1, h2, h3⟩ := ih _ _ _ _ h
      refine ⟨?_, ?_, ?_⟩
      · rw [h1]
        simp [List.append_assoc]
      · rw [h2]
        simp only [List.length_cons]
        ring
      · rw [h3]
        have hfun : (fun i => completed + opsPerArticle options + (i + 1) * opsPerArticle options)
            = (fun i => completed + (i + 1 + 1) * opsPerArticle options) := by
          funext i
          ring
        simp only [List.length_cons, List.range_succ_eq_map, List.map_cons, List.map_map,
          List.append_assoc, List.singleton_append]
        rw [hfun]
        simp [Function.comp, Nat.succ_eq_add_one]

/-- A batch loop with a non-zero total never raises. -/
theorem batchLoop_isOk (oracle : Oracle) (exporter : Exporter) (options : Options)
    (selected_model : String) (template_content : Option String) {total : Nat}
    (htot : total ≠ 0) :
    ∀ (ps : List (String × String)) (acc : List ProcessingResult) (completed : Nat)
      (ptrace : List Nat), ∃ out,
      batchLoop oracle exporter options selected_model template_content total
          ps acc completed ptrace = Except.ok out := by
  intro ps
  induction ps with
  | nil => intro acc completed ptrace; exact ⟨_, rfl⟩
  | cons p rest ih =>
    intro acc completed ptrace
    obtain ⟨title, content⟩ := p
    simp only [batchLoop, if_neg htot]
    exact ih _ _ _

/-- The archive entry names are exactly the per-result download names. -/
theorem zipEntries_ok_names :
    ∀ (results : List ProcessingResult) (es : List (String × String)),
      zipEntries results = Except.ok es →
      es.map Prod.fst = results.map downloadFileName := by
  intro results
  induction results with
  | nil =>
    intro es h
    simp only [zipEntries, Except.ok.injEq] at h
    rw [← h]
    simp
  | cons r rest ih =>
    intro es h
    simp only [zipEntries] at h
    cases hd : r.docx with
    | none => rw [hd] at h; exact absurd h (by simp)
    | some b =>
      rw [hd] at h
      cases hz : zipEntries rest with
      | error e => rw [hz] at h; exact absurd h (by simp [Except.map])
      | ok es0 =>
        rw [hz] at h
        simp only [Except.map, Except.ok.injEq] at h
        rw [← h]
        simp [ih es0 hz]

/-- C1 (amended): process_article_async yields one Processing Result per
requested translation language whenever the Translate action is requested —
hence zero results when the language list is empty — and exactly one result
tagged Original otherwise. -/
theorem process_article_result_count (oracle : Oracle) (exporter : Exporter)
    (title content : String) (options : Options) (selected_model : String)
    (template_content : Option String) :
    (options.Actions.contains "Translate" = true →
      (process_article_async oracle exporter title content options selected_model template_content).1.length
          = options.TranslationLanguages.length
      ∧ (process_article_async oracle exporter title content options selected_model template_content).1.map ProcessingResult.lang
          = options.TranslationLanguages)
    ∧ (options.Actions.contains "Translate" = false →
      (process_article_async oracle exporter title content options selected_model template_content).1.map ProcessingResult.lang
          = ["Original"]) := by
  constructor
  · intro h
    have h2 : "Translate" ∈ options.Actions := by simpa using h
    constructor <;> simp [process_article_async, translationStage, h2, Function.comp_def]
  · intro h
    have h2 : "Translate" ∉ options.Actions := by simpa using h
    simp [process_article_async, translationStage, h2]

/-- C1 counterexample: with Translate requested and an empty language list the
pipeline yields zero Processing Results — the claimed single result does not
exist at this input. -/
theorem process_article_translate_empty_languages_no_result :
    (process_article_async oracle0 exporter0 "T" "C" optsTempty "m" none).1.length = 0 := rfl

/-- C1 witness: Translate into French and Spanish yields exactly two results
tagged with those languages. -/
theorem process_article_result_count_witness :
    (process_article_async oracle0 exporter0 "T" "C" optsT2 "m" none).1.length = 2
    ∧ (process_article_async oracle0 exporter0 "T" "C" optsT2 "m" none).1.map ProcessingResult.lang
        = ["French", "Spanish"] := by
  have h := (process_article_result_count oracle0 exporter0 "T" "C" optsT2 "m" none).1 (by decide)
  exact ⟨by rw [h.1]; rfl, h.2⟩

/-- C3: at each stage — generation, reauthoring and each per-language
translation — a model response that is the failure sentinel or whitespace
only leaves the stage content exactly as it entered the stage. -/
theorem stage_fallback_preserves_content (oracle : Oracle) (title content : String)
    (perspectives : List String) (selected_model : String) (options : Options)
    (template_content : Option String) (language : String) :
    (failsOrBlank (send_to_openai_api_async oracle (generatePrompt title content perspectives) selected_model options) →
      generate_content oracle title content perspectives selected_model options = content)
    ∧ (failsOrBlank (send_to_openai_api_async oracle (reauthorPrompt content template_content perspectives) selected_model options) →
      reauthor_content oracle content template_content perspectives selected_model options = content)
    ∧ (failsOrBlank (send_to_openai_api_async oracle (translatePromptSpec content language) selected_model options) →
      prompt_utils_translate_content oracle content language selected_model options = content) := by
  refine ⟨?_, ?_, ?_⟩ <;> intro h <;>
  · rcases h with h | ⟨s, hs, hblank⟩
    · simp [generate_content, reauthor_content, prompt_utils_translate_content, h]
    · simp [generate_content, reauthor_content, prompt_utils_translate_content, hs, hblank]

/-- C3 witness: a failing model call leaves concrete content untouched at the
generation stage. -/
theorem stage_fallback_preserves_content_witness :
    generate_content oracle0 "T" "C" [] "m" optsG = "C" :=
  (stage_fallback_preserves_content oracle0 "T" "C" [] "m" optsG none "French").1 (Or.inl rfl)

/-- Invariants of the batch progress counters: the up-front total, the final
counter value, the recorded progress updates, their monotonicity and bound,
and the condition under which the counter reaches the total. -/
def batchProgressSpec (titles contents : List String) (options : Options)
    (out : BatchOutput) : Prop :=
  total_operations titles options = titles.length * opsPerArticle options
  ∧ out.completed_operations = min titles.length contents.length * opsPerArticle options
  ∧ out.progressTrace = (List.range (min titles.length contents.length)).map
      (fun i => (i + 1) * opsPerArticle options)
  ∧ List.Pairwise (fun a b => a ≤ b) out.progressTrace
  ∧ (∀ x ∈ out.progressTrace, x ≤ total_operations titles options)
  ∧ out.completed_operations ≤ total_operations titles options
  ∧ (titles.length ≤ contents.length →
      out.completed_operations = total_operations titles options)

/-- C2 (amended): total_operations is fixed up front as len(titles) times the
per-article operation count; completed_operations starts at 0, advances by
that count per processed pair, never exceeds the total, and ends at
min(len(titles), len(contents)) times the count — equal to the total exactly
when contents supplies at least as many entries as titles. -/
theorem batch_progress_invariants (oracle : Oracle) (exporter : Exporter)
    (titles contents : List String) (options : Options) (selected_model : String)
    (template_content : Option String) (out : BatchOutput)
    (h : process_multiple_articles_async oracle exporter titles contents options
        selected_model template_content = Except.ok out) :
    batchProgressSpec titles contents options out := by
  obtain ⟨h1, h2, h3⟩ := batchLoop_ok_spec oracle exporter options selected_model
    template_content (total_operations titles options) (titles.zip contents) [] 0 [] out h
  have hlen : (titles.zip contents).length = min titles.length contents.length :=
    List.length_zip titles contents
  have hmin : min titles.length contents.length ≤ titles.length := Nat.min_le_left _ _
  refine ⟨rfl, ?_, ?_, ?_, ?_, ?_, ?_⟩
  · rw [h2, hlen]
    simp
  · rw [h3, hlen]
    simp
  · rw [h3]
    simp only [List.nil_append]
    rw [List.pairwise_map]
    refine (List.pairwise_lt_range _).imp ?_
    intro a b hab
    have h4 : a + 1 ≤ b + 1 := Nat.succ_le_succ hab.le
    simpa using Nat.mul_le_mul_right (opsPerArticle options) h4
  · intro x hx
    rw [h3] at hx
    simp only [List.nil_append, List.mem_map, List.mem_range] at hx
    obtain ⟨i, hi, rfl⟩ := hx
    have h5 : i + 1 ≤ titles.length := Nat.succ_le_of_lt (lt_of_lt_of_le (hlen ▸ hi) hmin)
    simpa [total_operations] using Nat.mul_le_mul_right (opsPerArticle options) h5
  · rw [h2, hlen]
    simpa [total_operations] using Nat.mul_le_mul_right (opsPerArticle options) hmin
  · intro hle
    rw [h2, hlen, Nat.min_eq_left hle]
    simp [total_operations]

set_option maxRecDepth 8192 in
/-- C2 counterexample: with two titles and one content the batch loop
finishes with completed_operations at 1 while total_operations is 2, so the
final counter stays strictly below the total. -/
theorem batch_progress_shortfall_example :
    Except.map (fun o => BatchOutput.completed_operations o)
        (process_multiple_articles_async oracle0 exporter0 ["a", "b"] ["x"] optsR "m" none)
      = Except.ok 1
    ∧ total_operations ["a", "b"] optsR = 2 := ⟨rfl, rfl⟩

set_option maxRecDepth 8192 in
/-- C2 witness: the progress invariants evaluated on a concrete one-article
batch run. -/
theorem batch_progress_invariants_witness :
    batchProgressSpec ["a"] ["x"] optsR ⟨[⟨none, "a", "x", "Original"⟩], 1, [1]⟩ :=
  batch_progress_invariants oracle0 exporter0 ["a"] ["x"] optsR "m" none
    ⟨[⟨none, "a", "x", "Original"⟩], 1, [1]⟩ rfl

/-- C4 (amended): whatever the model endpoint and the document exporter do —
including every failure — the batch returns normally with a result list
whenever the action set is non-empty or no (title, content) pair exists; only
an empty action set combined with at least one article aborts the run, with a
division by zero in the progress update. -/
theorem batch_completes_with_nonempty_actions (oracle : Oracle) (exporter : Exporter)
    (titles contents : List String) (options : Options) (selected_model : String)
    (template_content : Option String)
    (h : options.Actions ≠ [] ∨ titles.zip contents = []) :
    ∃ out, process_multiple_articles_async oracle exporter titles contents options
        selected_model template_content = Except.ok out := by
  rcases h with h | h
  · by_cases hz : titles.zip contents = []
    · unfold process_multiple_articles_async
      rw [hz]
      exact ⟨_, rfl⟩
    · have htitles : titles ≠ [] := by
        intro he
        exact hz (by simp [he])
      have hops : opsPerArticle options ≠ 0 := by
        have hpos : 0 < options.Actions.length := List.length_pos.mpr h
        unfold opsPerArticle
        omega
      have htot : total_operations titles options ≠ 0 := by
        have hlen : titles.length ≠ 0 := by
          simpa [List.length_eq_zero] using htitles
        exact Nat.mul_ne_zero hlen hops
      exact batchLoop_isOk oracle exporter options selected_model template_content
        htot _ _ _ _
  · unfold process_multiple_articles_async
    rw [h]
    exact ⟨_, rfl⟩

set_option maxRecDepth 8192 in
/-- C4 counterexample: an empty action set with one article makes the batch
raise ZeroDivisionError in the progress update instead of completing. -/
theorem batch_empty_actions_division_error :
    process_multiple_articles_async oracle0 exporter0 ["a"] ["x"] optsNone "m" none
      = Except.error "ZeroDivisionError" := rfl

/-- C4 witness: a batch with a non-empty action set and failing model and
exporter still returns normally. -/
theorem batch_completes_with_nonempty_actions_witness :
    ∃ out, process_multiple_articles_async oracle0 exporter0 ["a"] ["x"] optsR "m" none
      = Except.ok out :=
  batch_completes_with_nonempty_actions oracle0 exporter0 ["a"] ["x"] optsR "m" none
    (Or.inl (by decide))

/-- A truthy template is interpolated into the reauthoring prompt. -/
theorem template_occursIn_reauthorPrompt (content t : String) (perspectives : List String)
    (h : pyTruthy (some t) = true) :
    occursIn t (reauthorPrompt content (some t) perspectives) := by
  cases hp : perspectives.isEmpty with
  | false =>
    simp only [reauthorPrompt, h, hp, Option.getD_some, eq_self_iff_true,
      Bool.false_eq_true, if_true, if_false]
    apply occursIn_append_left
    apply occursIn_append_left
    apply occursIn_append_left
    apply occursIn_append_left
    apply occursIn_append_left
    apply occursIn_append_left
    apply occursIn_append_left
    apply occursIn_append_left
    exact occursIn_append_self _ t
  | true =>
    simp only [reauthorPrompt, h, hp, Option.getD_some, eq_self_iff_true,
      Bool.false_eq_true, if_true, if_false]
    apply occursIn_append_left
    apply occursIn_append_left
    apply occursIn_append_left
    apply occursIn_append_left
    apply occursIn_append_left
    exact occursIn_append_self _ t

/-- C5: the content stage selects at most one model call with fixed
precedence — Generate wins over Reauthor/Format, which win over
pass-through — and the reauthoring prompt interpolates the template exactly
when a (truthy) template was supplied. -/
theorem content_stage_precedence (oracle : Oracle) (title content : String)
    (options : Options) (selected_model : String) (template_content : Option String) :
    (options.Actions.contains "Generate Content" = true →
      contentStage oracle title content options selected_model template_content =
        (generate_content oracle title content options.Perspective selected_model options,
         [Event.modelCall PromptKind.generate (generatePrompt title content options.Perspective)]))
    ∧ (options.Actions.contains "Generate Content" = false →
       (options.Actions.contains "Reauthor Content" = true
         ∨ options.Actions.contains "Format to Template" = true) →
      contentStage oracle title content options selected_model template_content =
        (reauthor_content oracle content template_content options.Perspective selected_model options,
         [Event.modelCall PromptKind.reauthor (reauthorPrompt content template_content options.Perspective)]))
    ∧ (options.Actions.contains "Generate Content" = false →
       options.Actions.contains "Reauthor Content" = false →
       options.Actions.contains "Format to Template" = false →
      contentStage oracle title content options selected_model template_content = (content, []))
    ∧ (pyTruthy template_content = true →
      occursIn (template_content.getD "") (reauthorPrompt content template_content options.Perspective))
    ∧ (pyTruthy template_content = false →
      reauthorPrompt content template_content options.Perspective
        = reauthorPromptNoTemplate content options.Perspective) := by
  refine ⟨?_, ?_, ?_, ?_, ?_⟩
  · intro h
    have hm : "Generate Content" ∈ options.Actions := by simpa using h
    simp [contentStage, hm]
  · intro h1 h2
    have h1m : "Generate Content" ∉ options.Actions := by simpa using h1
    have h2m : "Reauthor Content" ∈ options.Actions ∨ "Format to Template" ∈ options.Actions := by
      rcases h2 with h2 | h2
      · exact Or.inl (by simpa using h2)
      · exact Or.inr (by simpa using h2)
    simp [contentStage, h1m, h2m]
  · intro h1 h2 h3
    have h1m : "Generate Content" ∉ options.Actions := by simpa using h1
    have h2m : "Reauthor Content" ∉ options.Actions := by simpa using h2
    have h3m : "Format to Template" ∉ options.Actions := by simpa using h3
    simp [contentStage, h1m, h2m, h3m]
  · intro h
    cases template_content with
    | none => simp [pyTruthy] at h
    | some t =>
      simpa using template_occursIn_reauthorPrompt content t options.Perspective h
  · intro h
    simp only [reauthorPrompt, reauthorPromptNoTemplate, h, Bool.false_eq_true, if_false]

/-- C5 witness: with only Generate Content selected the content stage issues
exactly the generation prompt. -/
theorem content_stage_precedence_witness :
    contentStage oracle0 "T" "C" optsG "m" none =
      (generate_content oracle0 "T" "C" [] "m" optsG,
       [Event.modelCall PromptKind.generate (generatePrompt "T" "C" [])]) :=
  (content_stage_precedence oracle0 "T" "C" optsG "m" none).1 (by decide)

/-- C6: the local perspective-sectioning pass runs exactly when the
perspective list is non-empty and the Reauthor Content action is not in the
action set — in particular it still runs after a Generate pass. -/
theorem perspective_stage_guard (oracle : Oracle) (exporter : Exporter)
    (title content : String) (options : Options) (selected_model : String)
    (template_content : Option String) :
    Event.applyPerspectives ∈
      (process_article_async oracle exporter title content options selected_model template_content).2
    ↔ (options.Perspective ≠ []
        ∧ options.Actions.contains "Reauthor Content" = false) := by
  cases hg : options.Actions.contains "Generate Content" <;>
  cases hr : options.Actions.contains "Reauthor Content" <;>
  cases hf : options.Actions.contains "Format to Template" <;>
  cases ht : options.Actions.contains "Translate" <;>
  cases hp : options.Perspective.isEmpty <;>
  simp_all [process_article_async, contentStage, perspectiveStage, translationStage,
    List.isEmpty_iff, List.isEmpty_eq_false]

set_option maxRecDepth 65536 in
/-- C7 (amended): the Generate and Reauthor prompts end with an explicit
instruction to return only the requested content without additional
commentary; the Translate prompt contains that instruction but ends with the
interpolated content; the Format-to-template prompt ends with the
interpolated template and its fixed skeleton carries no such instruction. -/
theorem prompt_ending_instructions (title content template language : String)
    (perspectives : List String) (template_content : Option String) :
    endsWithStr "Provide the generated content in markdown format, without any additional comments or questions."
      (generatePrompt title content perspectives)
    ∧ endsWithStr "Provide the reauthored content directly, without any additional comments or questions."
      (reauthorPrompt content template_content perspectives)
    ∧ occursIn "without any additional comments or questions"
      (translatePromptLocal content language)
    ∧ endsWithStr content (translatePromptLocal content language)
    ∧ endsWithStr template (formatPrompt content template)
    ∧ occursB "additional comments" (formatPrompt "Hello" "Tmpl") = false := by
  refine ⟨?_, ?_, ?_, ?_, ?_, ?_⟩
  · simp only [generatePrompt]
    exact endsWithStr_append _ _
  · simp only [reauthorPrompt]
    exact endsWithStr_append _ _
  · simp only [translatePromptLocal]
    apply occursIn_append_left
    apply occursIn_append_right
    decide
  · simp only [translatePromptLocal]
    exact endsWithStr_append _ _
  · simp only [formatPrompt]
    exact endsWithStr_append _ _
  · decide

set_option maxRecDepth 65536 in
/-- C7 counterexample: at concrete inputs the Translate prompt ends with the
interpolated content rather than with the no-commentary instruction it
contains, and the Format prompt contains no such instruction anywhere. -/
theorem translate_format_prompt_ending_example :
    endsWithB "without any additional comments or questions."
      (translatePromptLocal "Hello" "French") = false
    ∧ endsWithB "Hello" (translatePromptLocal "Hello" "French") = true
    ∧ occursB "additional comments" (formatPrompt "Hello" "Tmpl") = false
    ∧ endsWithB "Tmpl" (formatPrompt "Hello" "Tmpl") = true :=
  ⟨by decide, by decide, by decide, by decide⟩

/-- C8 (amended): the download controls and archive entries are named from
the stored result title, so results tagged Original are offered as
title_Original.docx while translated results — whose stored title already
embeds the language — are offered as title_language_language.docx; the
archive kb_articles.zip is offered exactly when more than one result exists
and repeats the same per-result names. -/
theorem artifact_naming (oracle : Oracle) (exporter : Exporter)
    (title content : String) (options : Options) (selected_model : String)
    (template_content : Option String) :
    ((options.Actions.contains "Translate" = false →
      (process_article_async oracle exporter title content options selected_model template_content).1.map downloadFileName
        = [title ++ "_" ++ "Original" ++ ".docx"])
    ∧ (options.Actions.contains "Translate" = true →
      (process_article_async oracle exporter title content options selected_model template_content).1.map downloadFileName
        = options.TranslationLanguages.map
            (fun lang => title ++ "_" ++ lang ++ "_" ++ lang ++ ".docx")))
    ∧ (∀ results : List ProcessingResult,
      (results.length > 1 → (display_results results).2 = some (create_zip_download results))
      ∧ (¬ results.length > 1 → (display_results results).2 = none)
      ∧ (∀ es, zipEntries results = Except.ok es →
          create_zip_download results = Except.ok ("kb_articles.zip", es)
          ∧ es.map Prod.fst = results.map downloadFileName)) := by
  refine ⟨⟨?_, ?_⟩, ?_⟩
  · intro h
    have hm : "Translate" ∉ options.Actions := by simpa using h
    simp [process_article_async, translationStage, downloadFileName, hm]
  · intro h
    have hm : "Translate" ∈ options.Actions := by simpa using h
    simp [process_article_async, translationStage, downloadFileName, hm, Function.comp_def]
  · intro results
    refine ⟨?_, ?_, ?_⟩
    · intro hlen
      simp [display_results, hlen]
    · intro hlen
      simp [display_results, hlen]
    · intro es hz
      exact ⟨by simp [create_zip_download, hz, Except.map], zipEntries_ok_names results es hz⟩

set_option maxRecDepth 8192 in
/-- C8 counterexample: a translated result stores title_language as its
title, so the offered file is named T_French_French.docx rather than the
claimed T_French.docx. -/
theorem translated_artifact_double_language_name :
    (process_article_async oracle0 exporter0 "T" "C" optsT1 "m" none).1.map downloadFileName
      = ["T_French_French.docx"] := by decide

set_option maxRecDepth 8192 in
/-- C8 witness: the translated download names evaluated on a concrete
two-language article. -/
theorem artifact_naming_witness :
    (process_article_async oracle0 exporter1 "T" "C" optsT2 "m" none).1.map downloadFileName
      = ["T_French_French.docx", "T_Spanish_Spanish.docx"] := by
  have h := ((artifact_naming oracle0 exporter1 "T" "C" optsT2 "m" none).1.2) (by decide)
  rw [h]
  decide

/-- C9: with Format to Template selected and Generate Content absent the
content stage issues exactly the prompt built by reauthor_content, and no
input whatsoever makes the pipeline issue a call built by the dedicated
format_to_template prompt builder. -/
theorem format_builder_unused (oracle : Oracle) (exporter : Exporter)
    (title content : String) (options : Options) (selected_model : String)
    (template_content : Option String) :
    (options.Actions.contains "Generate Content" = false →
     options.Actions.contains "Format to Template" = true →
      contentStage oracle title content options selected_model template_content =
        (reauthor_content oracle content template_content options.Perspective selected_model options,
         [Event.modelCall PromptKind.reauthor (reauthorPrompt content template_content options.Perspective)]))
    ∧ (∀ p : String, Event.modelCall PromptKind.format p ∉
        (process_article_async oracle exporter title content options selected_model template_content).2) := by
  constructor
  · intro h1 h2
    have h1m : "Generate Content" ∉ options.Actions := by simpa using h1
    have h2m : "Format to Template" ∈ options.Actions := by simpa using h2
    simp [contentStage, h1m, h2m]
  · intro p
    cases hg : options.Actions.contains "Generate Content" <;>
    cases hr : options.Actions.contains "Reauthor Content" <;>
    cases hf : options.Actions.contains "Format to Template" <;>
    cases ht : options.Actions.contains "Translate" <;>
    cases hp : options.Perspective.isEmpty <;>
    simp_all [process_article_async, contentStage, perspectiveStage, translationStage]

/-- C9 witness: with only Format to Template selected the content stage
issues the reauthoring prompt. -/
theorem format_builder_unused_witness :
    contentStage oracle0 "T" "C" optsF "m" none =
      (reauthor_content oracle0 "C" none [] "m" optsF,
       [Event.modelCall PromptKind.reauthor (reauthorPrompt "C" none [])]) :=
  (format_builder_unused oracle0 exporter0 "T" "C" optsF "m" none).1 (by decide) (by decide)

/-- The pairing behaviour of a finished batch: the results are those of the
positional zip of titles and contents, the zip drops surplus entries of the
longer list, the counter ends at the number of processed pairs times the
per-article count, while the total is computed from the title count. -/
def batchPairingSpec (oracle : Oracle) (exporter : Exporter)
    (titles contents : List String) (options : Options) (selected_model : String)
    (template_content : Option String) (out : BatchOutput) : Prop :=
  out.all_results = ((titles.zip contents).map (fun p =>
      (process_article_async oracle exporter p.1 p.2 options selected_model template_content).1)).flatten
  ∧ (titles.zip contents).length = min titles.length contents.length
  ∧ out.completed_operations = min titles.length contents.length * opsPerArticle options
  ∧ total_operations titles options = titles.length * opsPerArticle options

/-- C10: the batch processes exactly the positional pairs of titles and
contents — min(len(titles), len(contents)) articles — silently skipping
surplus entries, while total_operations is still computed from len(titles);
concretely, two titles with one content finish with the counter at 1 against
a total of 2. -/
theorem batch_zip_pairing :
    (∀ (oracle : Oracle) (exporter : Exporter) (titles contents : List String)
      (options : Options) (selected_model : String) (template_content : Option String)
      (out : BatchOutput),
      process_multiple_articles_async oracle exporter titles contents options
          selected_model template_content = Except.ok out →
      batchPairingSpec oracle exporter titles contents options selected_model template_content out)
    ∧ Except.map (fun o => BatchOutput.completed_operations o)
        (process_multiple_articles_async oracle0 exporter0 ["a", "b"] ["x"] optsR "m" none)
      = Except.ok 1
    ∧ total_operations ["a", "b"] optsR = 2 := by
  refine ⟨?_, ?_, rfl⟩
  · intro oracle exporter titles contents options selected_model template_content out h
    obtain ⟨h1, h2, h3⟩ := batchLoop_ok_spec oracle exporter options selected_model
      template_content (total_operations titles options) (titles.zip contents) [] 0 [] out h
    have hlen : (titles.zip contents).length = min titles.length contents.length :=
      List.length_zip titles contents
    refine ⟨by simpa using h1, hlen, ?_, rfl⟩
    rw [h2, hlen]
    simp
  · have : process_multiple_articles_async oracle0 exporter0 ["a", "b"] ["x"] optsR "m" none
        = Except.ok ⟨[⟨none, "a", "x", "Original"⟩], 1, [1]⟩ := by
      set_option maxRecDepth 8192 in rfl
    rw [this]
    rfl

set_option maxRecDepth 8192 in
/-- C10 witness: the pairing behaviour evaluated on a concrete batch with a
surplus title. -/
theorem batch_zip_pairing_witness :
    batchPairingSpec oracle0 exporter0 ["a", "b"] ["x"] optsR "m" none
      ⟨[⟨none, "a", "x", "Original"⟩], 1, [1]⟩ :=
  batch_zip_pairing.1 oracle0 exporter0 ["a", "b"] ["x"] optsR "m" none
    ⟨[⟨none, "a", "x", "Original"⟩], 1, [1]⟩ rfl

end KBDojo
